import Mathlib

/-!
Verification of the request-rewrite and relay pipeline of `src/proxy.c`.

The development shallowly embeds the `serve` thread body and the
`clienterror` helper.  Strings model the NUL-terminated C buffers
(all data involved is ASCII, so character-level and byte-level views
agree); the observable effects of one session (writes to the client
socket, origin connection attempts, writes to the origin socket,
socket closes) are modelled as a trace of `Event`s in program order.
Bounded-buffer truncation by `strncat` is not modelled (buffers are
unbounded), but the `snprintf` overflow guards of `clienterror` are.
-/

namespace ProxySpec

set_option maxRecDepth 40000

/-- `MAXLINE` from csapp.h: the size of line buffers and of the relay buffer. -/
def MAXLINE : Nat := 8192

/-- `MAXBUF` from csapp.h: the size of the error-body buffer in `clienterror`. -/
def MAXBUF : Nat := 8192

/-- The modulus of the 64-bit `size_t` arithmetic in which the
`headers_parsed` counter is incremented and compared. -/
def sizeTMod : Nat := 2 ^ 64

/-- The fixed `header_user_agent` constant of proxy.c (lines 60-62). -/
def header_user_agent : String :=
  "Mozilla/5.0 (X11; Linux x86_64; rv:3.10.0) Gecko/20230411 Firefox/63.0.1"

/-- One parsed header line, as stored by the http parser: exact name and
value text as received. -/
structure Header where
  name : String
  value : String
deriving DecidableEq

/-- `strncmp(s1, s2, n) == 0` for NUL-terminated ASCII strings: the first
`n` characters agree (and if one string is shorter than `n`, both end
within the compared range, since the terminating NUL participates in the
comparison). -/
def strncmpIsZero (s1 s2 : String) (n : Nat) : Bool :=
  s1.toList.take n == s2.toList.take n

/-- Observable actions of one `serve` session, in program order.
`writeClient` is a `rio_writen` to the accepted client socket,
`relayClient` is a relayed chunk of origin-response bytes written to the
client, `connectOrigin` is an `open_clientfd(host, port)` attempt,
`writeOrigin` is the `rio_writen` of the rewritten request,
`closeClient`/`closeOrigin` are `close` on the respective descriptors. -/
inductive Event where
  | writeClient : String → Event
  | relayClient : List UInt8 → Event
  | connectOrigin : String → String → Event
  | writeOrigin : String → Event
  | closeClient : Event
  | closeOrigin : Event
deriving DecidableEq

/-- The HTML body built by `clienterror` (proxy.c lines 92-101): the
`snprintf` format string with `errnum`, `shortmsg`, `longmsg` substituted. -/
def clienterrorBody (errnum shortmsg longmsg : String) : String :=
  "<!DOCTYPE html>\r\n<html>\r\n<head><title>Tiny Error</title></head>\r\n<body bgcolor=\"ffffff\">\r\n"
  ++ "<h1>" ++ errnum ++ ": " ++ shortmsg ++ "</h1>" ++ "\r\n"
  ++ "<p>" ++ longmsg ++ "</p>" ++ "\r\n"
  ++ "<hr /><em>The Tiny Web server</em>\r\n</body></html>\r\n"

/-- The response-header block built by `clienterror` (proxy.c lines 107-111). -/
def clienterrorBuf (errnum shortmsg : String) (bodylen : Nat) : String :=
  "HTTP/1.0 " ++ errnum ++ " " ++ shortmsg ++ "\r\n"
  ++ "Content-Type: text/html\r\n"
  ++ "Content-Length: " ++ toString bodylen ++ "\r\n\r\n"

/-- `clienterror` (proxy.c lines 84-127): builds the body, returns doing
nothing if it would overflow `MAXBUF`; builds the header block with
`Content-Length` equal to the body byte length, returns doing nothing if it
would overflow `MAXLINE`; otherwise writes headers then body to the client. -/
def clienterror (errnum shortmsg longmsg : String) : List Event :=
  let body := clienterrorBody errnum shortmsg longmsg
  let bodylen := body.utf8ByteSize
  if MAXBUF ≤ bodylen then []
  else
    let buf := clienterrorBuf errnum shortmsg bodylen
    if MAXLINE ≤ buf.utf8ByteSize then []
    else [Event.writeClient buf, Event.writeClient body]

/-- The 400 response of `serve` (both call sites use the same message). -/
def err400 : List Event :=
  clienterror "400" "Bad Request" "Proxy received a malformed request"

/-- The 501 response of `serve` (proxy.c lines 173-174). -/
def err501 : List Event :=
  clienterror "501" "Not Implemented" "Proxy does not implement this method"

/-- The 503 response of `serve` (proxy.c lines 235-236). -/
def err503 : List Event :=
  clienterror "503" "Service Unavailable" "Failed to connect to server"

/-- The `"<name>: <value>\r\n"` line appended for one forwarded header
(proxy.c lines 205-211). -/
def headerLineOf (h : Header) : String :=
  h.name ++ ": " ++ h.value ++ "\r\n"

/-- The header-copy loop of `serve` (proxy.c lines 202-215): walk the parsed
headers in order, appending `headerLineOf h` to the accumulated request
unless `strncmp("User-agent", name, 10) == 0`. -/
def appendHeaders (request : String) : List Header → String
  | [] => request
  | h :: rest =>
    if strncmpIsZero "User-agent" h.name 10 then appendHeaders request rest
    else appendHeaders (request ++ headerLineOf h) rest

/-- The predicate deciding that a header is copied into the outbound
request: the code copies `h` exactly when `strncmp("User-agent", h.name, 10)`
is nonzero. -/
def headerKept (h : Header) : Bool :=
  !(strncmpIsZero "User-agent" h.name 10)

/-- The complete outbound request built by `serve` (proxy.c lines 195, 202-229):
hard-coded `"GET <path> HTTP/1.0\r\n"` request line, then the copied headers,
then the proxy's own `User-Agent` line, then a blank line. -/
def buildRequest (path : String) (headers : List Header) : String :=
  appendHeaders ("GET " ++ path ++ " HTTP/1.0\r\n") headers
  ++ "User-Agent: " ++ header_user_agent ++ "\r\n" ++ "\r\n"

/-- The origin-response read loop (proxy.c lines 252-257) viewed on an
error-free byte stream: `rio_readnb` fills up to `MAXLINE` bytes per call,
returning 0 only at end of stream, and each full read is written to the
client.  `relayChunksAux` carries fuel (each step consumes at least one
byte of a nonempty stream, so `resp.length` fuel suffices). -/
def relayChunksAux (fuel : Nat) (resp : List UInt8) : List (List UInt8) :=
  match fuel with
  | 0 => []
  | fuel + 1 =>
    if resp = [] then []
    else resp.take MAXLINE :: relayChunksAux fuel (resp.drop MAXLINE)

/-- The chunks successively read from the origin response and written to
the client by the relay loop. -/
def relayChunks (resp : List UInt8) : List (List UInt8) :=
  relayChunksAux resp.length resp

/-- The parsing outcome of the header-reading loop (proxy.c lines 182-192):
either some line failed to parse as a `HEADER` (the headers accepted before
that point are recorded but the session aborts with a 400), or the loop
reached the blank line with the given parsed headers. -/
inductive HeaderPhase where
  | malformed : List Header → HeaderPhase
  | ok : List Header → HeaderPhase

/-- The inputs determining one `serve` session after a successful request
line parse: the retrieved `method`, `path`, `host`, optional `port`, the
header-phase outcome, the indeterminate initial value of the uninitialized
`size_t` counter `headers_parsed` (proxy.c line 198 declares it without an
initializer; its arithmetic wraps modulo `sizeTMod`), whether
`open_clientfd` succeeds, and the origin's response bytes. -/
structure ServeInput where
  method : String
  path : String
  host : String
  port : Option String
  hp : HeaderPhase
  headersParsedInit : Nat
  originReachable : Bool
  originResponse : List UInt8

/-- The event trace of `serve` from the method check onward (proxy.c lines
170-262), in program order:
501 written if `strncmp(method, "GET", 3)` is nonzero (the code then falls
through: there is no return in that branch); port defaulting to "80"; the
header loop (a malformed header line yields a 400 and returns); the
`headers_parsed < 1` check (400 and return), evaluated on the wrapped
64-bit `size_t` value of initial garbage plus one increment per parsed
header; the `open_clientfd` attempt
(failure yields a 503 and returns); the request write; the relay loop; and
finally `close(client->connfd)`.  The origin descriptor is never closed by
the code, so no path emits `closeOrigin`. -/
def serveParsed (inp : ServeInput) : List Event :=
  (if strncmpIsZero inp.method "GET" 3 then [] else err501)
  ++ match inp.hp with
     | HeaderPhase.malformed _ => err400
     | HeaderPhase.ok headers =>
       if (inp.headersParsedInit + headers.length) % sizeTMod < 1 then err400
       else
         Event.connectOrigin inp.host (inp.port.getD "80")
         :: (if inp.originReachable then
               Event.writeOrigin (buildRequest inp.path headers)
               :: ((relayChunks inp.originResponse).map Event.relayClient
                   ++ [Event.closeClient])
             else err503)

/-- One whole session (proxy.c lines 137-262): reading no request line at
all returns silently; a request line that does not parse as `REQUEST`
yields a 400 and returns; otherwise the session continues as `serveParsed`.
None of the early-return paths closes the client socket. -/
inductive SessionInput where
  | empty : SessionInput
  | badRequestLine : SessionInput
  | parsed : ServeInput → SessionInput

/-- The event trace of one whole `serve` session. -/
def serve : SessionInput → List Event
  | SessionInput.empty => []
  | SessionInput.badRequestLine => err400
  | SessionInput.parsed inp => serveParsed inp

/-- The payload of a relayed chunk, if the event is one. -/
def relayData : Event → Option (List UInt8)
  | Event.relayClient d => some d
  | _ => none

/-- All bytes delivered to the client by the relay loop, in order. -/
def relayedBytes (tr : List Event) : List UInt8 :=
  (tr.filterMap relayData).flatten

/-- Concatenation used to state which header lines the outbound request
contains, in order. -/
def joinLines : List String → String
  | [] => ""
  | s :: rest => s ++ joinLines rest

/-! ### Concrete session inputs used to evaluate the model -/

/-- A parsed POST request with one Host header and a reachable origin. -/
def postInput : ServeInput :=
  ⟨"POST", "/", "origin.example", none,
   HeaderPhase.ok [⟨"Host", "origin.example"⟩], 0, true, []⟩

/-- A parsed GET request with no header lines at all, with the
uninitialized counter starting at 0. -/
def emptyHeadersInput : ServeInput :=
  ⟨"GET", "/", "origin.example", none, HeaderPhase.ok [], 0, true, []⟩

/-- A parsed GET request whose only header is the excluded one, so that
zero headers survive the exclusion. -/
def uaOnlyInput : ServeInput :=
  ⟨"GET", "/", "origin.example", none,
   HeaderPhase.ok [⟨"User-agent", "curl/8.0"⟩], 0, true, []⟩

/-- A parsed GET request whose origin connect fails. -/
def connectFailInput : ServeInput :=
  ⟨"GET", "/", "unreachable.example", none,
   HeaderPhase.ok [⟨"Host", "unreachable.example"⟩], 0, false, []⟩

/-- A parsed GET request served successfully with a two-byte origin
response. -/
def okRelayInput : ServeInput :=
  ⟨"GET", "/", "origin.example", none,
   HeaderPhase.ok [⟨"Host", "origin.example"⟩], 0, true, [104, 105]⟩

/-- A parsed GET request with an explicit port and two headers. -/
def demoInput : ServeInput :=
  ⟨"GET", "/index.html", "example.com", some "8080",
   HeaderPhase.ok [⟨"Host", "example.com"⟩, ⟨"Accept", "*/*"⟩], 0, true, [72, 73]⟩

/-- `demoInput` with no port in the request target. -/
def demoInputNoPort : ServeInput :=
  ⟨"GET", "/index.html", "example.com", none,
   HeaderPhase.ok [⟨"Host", "example.com"⟩, ⟨"Accept", "*/*"⟩], 0, true, [72, 73]⟩

/-- A parsed request whose method token merely begins with the letters GET. -/
def getxInput : ServeInput :=
  ⟨"GETX", "/", "origin.example", none,
   HeaderPhase.ok [⟨"Host", "origin.example"⟩], 0, true, []⟩

/-! ### Helper lemmas -/

/-- Unfolding equation for `serveParsed` on a fully parsed request. -/
theorem serveParsed_mk (m p h : String) (pt : Option String) (hs : List Header)
    (ini : Nat) (r : Bool) (resp : List UInt8) :
    serveParsed ⟨m, p, h, pt, HeaderPhase.ok hs, ini, r, resp⟩ =
      (if strncmpIsZero m "GET" 3 then [] else err501)
      ++ (if (ini + hs.length) % sizeTMod < 1 then err400
          else
            Event.connectOrigin h (pt.getD "80")
            :: (if r then
                  Event.writeOrigin (buildRequest p hs)
                  :: ((relayChunks resp).map Event.relayClient ++ [Event.closeClient])
                else err503)) := rfl

theorem joinLines_nil : joinLines [] = "" := rfl

theorem joinLines_cons (s : String) (l : List String) :
    joinLines (s :: l) = s ++ joinLines l := rfl

/-- The header-copy loop appends exactly the kept headers, formatted, in
their original order, to the accumulated request string. -/
theorem appendHeaders_eq (acc : String) (hs : List Header) :
    appendHeaders acc hs = acc ++ joinLines ((hs.filter headerKept).map headerLineOf) := by
  induction hs generalizing acc with
  | nil => simp [appendHeaders, joinLines]
  | cons h rest ih =>
    by_cases hk : strncmpIsZero "User-agent" h.name 10
    · rw [appendHeaders, if_pos hk, ih]
      have : headerKept h = false := by simp [headerKept, hk]
      simp [List.filter_cons, this]
    · rw [appendHeaders, if_neg hk, ih]
      have : headerKept h = true := by simp [headerKept, hk]
      simp [List.filter_cons, this, joinLines_cons, String.append_assoc]

/-- A member of a string list occurs contiguously inside its concatenation. -/
theorem joinLines_mem_split (s : String) (l : List String) (hmem : s ∈ l) :
    ∃ p q, joinLines l = p ++ s ++ q := by
  induction l with
  | nil => cases hmem
  | cons a rest ih =>
    rcases List.mem_cons.mp hmem with heq | hrest
    · subst heq
      exact ⟨"", joinLines rest, by simp [joinLines_cons]⟩
    · obtain ⟨p, q, hpq⟩ := ih hrest
      exact ⟨a ++ p, q, by simp [joinLines_cons, hpq, String.append_assoc]⟩

/-- Concatenating the chunks read by the relay loop recovers the whole
origin response, provided the fuel covers the stream length. -/
theorem relayChunksAux_flatten (fuel : Nat) (resp : List UInt8)
    (hf : resp.length ≤ fuel) : (relayChunksAux fuel resp).flatten = resp := by
  induction fuel generalizing resp with
  | zero =>
    have : resp = [] := List.eq_nil_of_length_eq_zero (Nat.le_zero.mp hf)
    subst this; rfl
  | succ fuel ih =>
    by_cases h : resp = []
    · subst h; rfl
    · rw [relayChunksAux, if_neg h]
      have hpos : 0 < resp.length := List.length_pos.mpr h
      have hdrop : (resp.drop MAXLINE).length ≤ fuel := by
        rw [List.length_drop]
        have : (0 : Nat) < MAXLINE := by decide
        omega
      rw [List.flatten_cons, ih _ hdrop, List.take_append_drop]

theorem relayChunks_flatten (resp : List UInt8) :
    (relayChunks resp).flatten = resp :=
  relayChunksAux_flatten resp.length resp (Nat.le_refl _)

/-- Every chunk read by the relay loop is nonempty (a zero-byte read ends
the loop) and no larger than the relay buffer. -/
theorem relayChunksAux_mem (fuel : Nat) (resp c : List UInt8)
    (hc : c ∈ relayChunksAux fuel resp) : c ≠ [] ∧ c.length ≤ MAXLINE := by
  induction fuel generalizing resp with
  | zero => cases hc
  | succ fuel ih =>
    by_cases h : resp = []
    · subst h; cases hc
    · rw [relayChunksAux, if_neg h] at hc
      rcases List.mem_cons.mp hc with heq | hrest
      · subst heq
        constructor
        · intro heq
          have hlen := congrArg List.length heq
          rw [List.length_take] at hlen
          simp only [List.length_nil] at hlen
          have hpos : 0 < resp.length := List.length_pos.mpr h
          have hM : (0 : Nat) < MAXLINE := by decide
          omega
        · simp [List.length_take]
      · exact ih _ hrest

theorem relayChunks_mem (resp c : List UInt8) (hc : c ∈ relayChunks resp) :
    c ≠ [] ∧ c.length ≤ MAXLINE :=
  relayChunksAux_mem resp.length resp c hc

/-- `clienterror` only writes textual error responses: it relays no origin
bytes. -/
theorem clienterror_filterMap_relayData (e s l : String) :
    (clienterror e s l).filterMap relayData = [] := by
  simp only [clienterror]
  split
  · rfl
  · split
    · rfl
    · rfl

theorem relayedBytes_append (a b : List Event) :
    relayedBytes (a ++ b) = relayedBytes a ++ relayedBytes b := by
  simp [relayedBytes, List.filterMap_append]

theorem relayedBytes_clienterror_append (e s l : String) (rest : List Event) :
    relayedBytes (clienterror e s l ++ rest) = relayedBytes rest := by
  rw [relayedBytes_append]
  simp [relayedBytes, clienterror_filterMap_relayData]

/-- `l.take 3` equals a fixed three-element list exactly when those are the
first three elements of `l`. -/
theorem take_three_eq_iff (l : List Char) (a b c : Char) :
    l.take 3 = [a, b, c] ↔ ∃ rest, l = a :: b :: c :: rest := by
  constructor
  · intro h
    refine ⟨l.drop 3, ?_⟩
    have := List.take_append_drop 3 l
    rw [h] at this
    exact this.symm
  · rintro ⟨rest, rfl⟩
    rfl

/-- Shared step: any string followed by two CRLFs ends in the four-byte
terminator. -/
theorem append_crlf_crlf (X : String) : X ++ "\r\n" ++ "\r\n" = X ++ "\r\n\r\n" := by
  have h2 : ("\r\n" : String) ++ "\r\n" = "\r\n\r\n" := by decide
  rw [String.append_assoc, h2]

/-- The relay phase of a forwarding trace delivers exactly the
concatenation of its chunks to the client. -/
theorem relayedBytes_core (h po req : String) (cs : List (List UInt8)) :
    relayedBytes (Event.connectOrigin h po
      :: Event.writeOrigin req
      :: (cs.map Event.relayClient ++ [Event.closeClient])) = cs.flatten := by
  simp [relayedBytes, relayData, List.filterMap_cons, List.filterMap_append,
    List.filterMap_map, Function.comp_def]

/-! ### Claim theorems -/

/-- Claim C1: the claim states that a non-GET request receives a 501 and
that no origin connection is attempted.  The code does send the 501, but
the call to `clienterror` at proxy.c lines 173-174 is not followed by a
`return`, so the session falls through: at a concrete parsed POST request
the trace contains the 501 write AND an origin connection attempt AND the
forwarded (rewritten) request.  This refutes the no-forwarding half of the
claim at a concrete input. -/
theorem post_gets_501_but_origin_still_contacted :
    serveParsed postInput
      = err501
        ++ (Event.connectOrigin "origin.example" "80"
            :: Event.writeOrigin (buildRequest "/" [⟨"Host", "origin.example"⟩])
            :: [Event.closeClient])
    ∧ Event.connectOrigin "origin.example" "80" ∈ serveParsed postInput := by
  refine ⟨rfl, ?_⟩
  exact List.mem_append_right _ (List.mem_cons_self _ _)

/-- Claim C2 (counterexample): the claim states the proxy never rejects a
request for having zero forwarded headers.  The code counts all parsed
headers in the uninitialized counter `headers_parsed` and rejects when the
count is below 1: on a GET request with zero header lines (counter
starting at 0) the session emits the 400 response and never contacts the
origin. -/
theorem zero_headers_request_rejected :
    serveParsed emptyHeadersInput = err400
    ∧ Event.connectOrigin "origin.example" "80" ∉ serveParsed emptyHeadersInput := by
  refine ⟨rfl, ?_⟩
  decide

/-- Claim C2 (amended): zero forwarded headers is never by itself a reason
for rejection — the `headers_parsed` counter counts every parsed header,
excluded ones included, so a GET request is forwarded whenever the wrapped
64-bit counter value (indeterminate initial garbage plus one increment per
parsed header line) is at least 1, even when no header survives the
User-Agent exclusion.  Rejection can still occur when that wrapped value is
0: with zero parsed header lines and garbage 0 (the counterexample), or by
wraparound for adversarial garbage values. -/
theorem zero_forwarded_headers_still_forwarded (m p h : String) (pt : Option String)
    (hs : List Header) (ini : Nat) (resp : List UInt8)
    (hcheck : 1 ≤ (ini + hs.length) % sizeTMod) :
    Event.connectOrigin h (pt.getD "80")
      ∈ serveParsed ⟨m, p, h, pt, HeaderPhase.ok hs, ini, true, resp⟩
    ∧ Event.writeOrigin (buildRequest p hs)
      ∈ serveParsed ⟨m, p, h, pt, HeaderPhase.ok hs, ini, true, resp⟩ := by
  constructor
  · rw [serveParsed_mk, if_neg (show ¬((ini + hs.length) % sizeTMod < 1) by omega)]
    exact List.mem_append_right _ (List.mem_cons_self _ _)
  · rw [serveParsed_mk, if_neg (show ¬((ini + hs.length) % sizeTMod < 1) by omega),
      if_pos (show (true : Bool) = true from rfl)]
    exact List.mem_append_right _ (List.mem_cons_of_mem _ (List.mem_cons_self _ _))

/-- Claim C2 witness: a GET request whose only header line is the excluded
identifying header (zero forwarded headers) is still forwarded. -/
theorem zero_forwarded_headers_witness :
    Event.connectOrigin "origin.example" "80" ∈ serveParsed uaOnlyInput
    ∧ Event.writeOrigin (buildRequest "/" [⟨"User-agent", "curl/8.0"⟩]) ∈ serveParsed uaOnlyInput :=
  zero_forwarded_headers_still_forwarded "GET" "/" "origin.example" none
    [⟨"User-agent", "curl/8.0"⟩] 0 [] (by decide)

/-- Claim C3: the claim states the User-Agent exclusion is case-insensitive
and the client value is never forwarded.  The code uses the case-sensitive
`strncmp("User-agent", name, 10)` (proxy.c line 204), which matches neither
the canonical spelling "User-Agent" nor "user-agent": a client header
"User-Agent: TestAgent" is therefore copied into the outbound request,
which then carries two User-Agent lines, the client's value included. -/
theorem client_user_agent_header_forwarded :
    strncmpIsZero "User-agent" "User-Agent" 10 = false
    ∧ strncmpIsZero "User-agent" "user-agent" 10 = false
    ∧ buildRequest "/" [⟨"User-Agent", "TestAgent"⟩]
        = "GET / HTTP/1.0\r\n" ++ "User-Agent: TestAgent\r\n"
          ++ "User-Agent: " ++ header_user_agent ++ "\r\n" ++ "\r\n" := by
  refine ⟨by decide, by decide, ?_⟩
  rfl

/-- Claim C4: the claim states both sockets are closed on every exit path.
In the code only the successful-relay path executes `close(client->connfd)`
(proxy.c line 259); the 503 path returns without closing the client socket,
the 400 paths return without closing it, the empty-request path returns
without closing it, and `close` is never called on the origin descriptor at
all. -/
theorem sockets_not_closed_on_exit_paths :
    (serveParsed connectFailInput
        = Event.connectOrigin "unreachable.example" "80" :: err503
      ∧ Event.closeClient ∉ serveParsed connectFailInput)
    ∧ (Event.closeClient ∈ serveParsed okRelayInput
      ∧ Event.closeOrigin ∉ serveParsed okRelayInput)
    ∧ Event.closeClient ∉ serve SessionInput.badRequestLine
    ∧ Event.closeClient ∉ serve SessionInput.empty := by
  exact ⟨⟨rfl, by decide⟩, ⟨by decide, by decide⟩, by decide, by decide⟩

/-- Claim C5: the relay loop reads chunks of at most `MAXLINE` bytes,
stops at a zero-byte read, writes each chunk verbatim, and consequently
the bytes relayed to the client are exactly the origin response,
byte-for-byte, for a response of any length. -/
theorem relay_transfers_bytes_exactly (m p h : String) (pt : Option String)
    (hs : List Header) (ini : Nat) (resp : List UInt8)
    (hcount : 1 ≤ (ini + hs.length) % sizeTMod) :
    relayedBytes (serveParsed ⟨m, p, h, pt, HeaderPhase.ok hs, ini, true, resp⟩) = resp
    ∧ ∀ c ∈ relayChunks resp, c ≠ [] ∧ c.length ≤ MAXLINE := by
  refine ⟨?_, fun c hc => relayChunks_mem resp c hc⟩
  rw [serveParsed_mk, if_neg (show ¬((ini + hs.length) % sizeTMod < 1) by omega),
    if_pos (show (true : Bool) = true from rfl), relayedBytes_append]
  have h1 : relayedBytes (if strncmpIsZero m "GET" 3 then [] else err501) = [] := by
    by_cases hm : strncmpIsZero m "GET" 3
    · rw [if_pos hm]; rfl
    · rw [if_neg hm, err501]
      simp [relayedBytes, clienterror_filterMap_relayData]
  rw [h1, List.nil_append, relayedBytes_core, relayChunks_flatten]

/-- Claim C5 witness: the two response bytes of `demoInput` are delivered
to the client unchanged. -/
theorem relay_transfers_bytes_witness :
    relayedBytes (serveParsed demoInput) = [72, 73] :=
  (relay_transfers_bytes_exactly "GET" "/index.html" "example.com" (some "8080")
    [⟨"Host", "example.com"⟩, ⟨"Accept", "*/*"⟩] 0 [72, 73] (by decide)).1

/-- Claim C6: for a forwarded request, the outbound request written to the
origin begins with exactly the rewritten request line
`GET <path> HTTP/1.0\r\n` and ends with the `\r\n\r\n` blank-line
terminator. -/
theorem outbound_request_line_and_terminator (m p h : String) (pt : Option String)
    (hs : List Header) (ini : Nat) (resp : List UInt8)
    (hcount : 1 ≤ (ini + hs.length) % sizeTMod) :
    Event.writeOrigin (buildRequest p hs)
      ∈ serveParsed ⟨m, p, h, pt, HeaderPhase.ok hs, ini, true, resp⟩
    ∧ (∃ rest, buildRequest p hs = "GET " ++ p ++ " HTTP/1.0\r\n" ++ rest)
    ∧ (∃ front, buildRequest p hs = front ++ "\r\n\r\n") := by
  refine ⟨?_, ?_, ?_⟩
  · rw [serveParsed_mk, if_neg (show ¬((ini + hs.length) % sizeTMod < 1) by omega),
      if_pos (show (true : Bool) = true from rfl)]
    exact List.mem_append_right _ (List.mem_cons_of_mem _ (List.mem_cons_self _ _))
  · refine ⟨joinLines ((hs.filter headerKept).map headerLineOf)
      ++ ("User-Agent: " ++ (header_user_agent ++ ("\r\n" ++ "\r\n"))), ?_⟩
    rw [buildRequest, appendHeaders_eq]
    simp only [String.append_assoc]
  · exact ⟨appendHeaders ("GET " ++ p ++ " HTTP/1.0\r\n") hs
      ++ "User-Agent: " ++ header_user_agent, append_crlf_crlf _⟩

/-- Claim C6 witness: `demoInput`'s outbound request is sent to the origin. -/
theorem outbound_request_line_witness :
    Event.writeOrigin (buildRequest "/index.html" [⟨"Host", "example.com"⟩, ⟨"Accept", "*/*"⟩])
      ∈ serveParsed demoInput :=
  (outbound_request_line_and_terminator "GET" "/index.html" "example.com" (some "8080")
    [⟨"Host", "example.com"⟩, ⟨"Accept", "*/*"⟩] 0 [72, 73] (by decide)).1

/-- Claim C7: every synthesized error response consists of the status line
`HTTP/1.0 <code> <reason>\r\n`, a `Content-Type: text/html` header, a
`Content-Length` equal to the byte length of the HTML body that follows, a
blank line, and a body containing `<h1><code>: <reason></h1>` and
`<p><detail></p>`; and a request line that fails to parse (e.g. one missing
the HTTP version token) yields exactly the 400 response. -/
theorem clienterror_response_format (errnum shortmsg longmsg : String)
    (hbody : (clienterrorBody errnum shortmsg longmsg).utf8ByteSize < MAXBUF)
    (hbuf : (clienterrorBuf errnum shortmsg
        (clienterrorBody errnum shortmsg longmsg).utf8ByteSize).utf8ByteSize < MAXLINE) :
    clienterror errnum shortmsg longmsg
      = [Event.writeClient ("HTTP/1.0 " ++ errnum ++ " " ++ shortmsg ++ "\r\n"
            ++ "Content-Type: text/html\r\n"
            ++ "Content-Length: "
            ++ toString (clienterrorBody errnum shortmsg longmsg).utf8ByteSize ++ "\r\n\r\n"),
         Event.writeClient (clienterrorBody errnum shortmsg longmsg)]
    ∧ (∃ p q, clienterrorBody errnum shortmsg longmsg
        = p ++ ("<h1>" ++ errnum ++ ": " ++ shortmsg ++ "</h1>") ++ q)
    ∧ (∃ p q, clienterrorBody errnum shortmsg longmsg
        = p ++ ("<p>" ++ longmsg ++ "</p>") ++ q)
    ∧ serve SessionInput.badRequestLine
        = clienterror "400" "Bad Request" "Proxy received a malformed request" := by
  refine ⟨?_, ?_, ?_, rfl⟩
  · simp only [clienterror]
    rw [if_neg (by omega), if_neg (by omega)]
    rfl
  · refine ⟨"<!DOCTYPE html>\r\n<html>\r\n<head><title>Tiny Error</title></head>\r\n<body bgcolor=\"ffffff\">\r\n",
      "\r\n" ++ ("<p>" ++ longmsg ++ "</p>") ++ "\r\n"
        ++ "<hr /><em>The Tiny Web server</em>\r\n</body></html>\r\n", ?_⟩
    simp only [clienterrorBody, String.append_assoc]
  · refine ⟨"<!DOCTYPE html>\r\n<html>\r\n<head><title>Tiny Error</title></head>\r\n<body bgcolor=\"ffffff\">\r\n"
        ++ ("<h1>" ++ errnum ++ ": " ++ shortmsg ++ "</h1>") ++ "\r\n",
      "\r\n" ++ "<hr /><em>The Tiny Web server</em>\r\n</body></html>\r\n", ?_⟩
    simp only [clienterrorBody, String.append_assoc]

/-- Claim C7 witness: the 400 response for a malformed request line, with
its Content-Length equal to the actual body byte length. -/
theorem clienterror_response_format_witness :
    clienterror "400" "Bad Request" "Proxy received a malformed request"
      = [Event.writeClient ("HTTP/1.0 " ++ "400" ++ " " ++ "Bad Request" ++ "\r\n"
            ++ "Content-Type: text/html\r\n"
            ++ "Content-Length: "
            ++ toString (clienterrorBody "400" "Bad Request" "Proxy received a malformed request").utf8ByteSize
            ++ "\r\n\r\n"),
         Event.writeClient (clienterrorBody "400" "Bad Request" "Proxy received a malformed request")] :=
  (clienterror_response_format "400" "Bad Request" "Proxy received a malformed request"
    (by decide) (by decide)).1

/-- Claim C8 (counterexample): the claim states every non-identifying
header is forwarded.  The exclusion test compares only the first 10 bytes,
so a header whose name merely begins with "User-agent" — here
"User-agentXtra", which is not a case-variant of "User-Agent" (their
lowercasings differ) — is dropped: the outbound request is identical to one
built from no headers at all. -/
theorem non_identifying_header_dropped :
    buildRequest "/" [⟨"User-agentXtra", "v"⟩]
      = "GET / HTTP/1.0\r\n" ++ "User-Agent: " ++ header_user_agent ++ "\r\n" ++ "\r\n"
    ∧ "User-agentXtra".toList.map Char.toLower ≠ "User-Agent".toList.map Char.toLower := by
  refine ⟨rfl, by decide⟩

/-- Claim C8 (amended): every header whose name does not begin with the 10
bytes "User-agent" (case-sensitively) is forwarded in original relative
order with its exact `name: value` text; headers failing that test are
dropped even when they are not the identifying header. -/
theorem kept_headers_in_order (path : String) (headers : List Header) :
    buildRequest path headers
      = "GET " ++ path ++ " HTTP/1.0\r\n"
        ++ joinLines ((headers.filter headerKept).map headerLineOf)
        ++ ("User-Agent: " ++ header_user_agent ++ "\r\n" ++ "\r\n")
    ∧ ∀ h ∈ headers, headerKept h = true
        → ∃ p q, buildRequest path headers = p ++ headerLineOf h ++ q := by
  have hbr : buildRequest path headers
      = "GET " ++ path ++ " HTTP/1.0\r\n"
        ++ joinLines ((headers.filter headerKept).map headerLineOf)
        ++ ("User-Agent: " ++ header_user_agent ++ "\r\n" ++ "\r\n") := by
    rw [buildRequest, appendHeaders_eq]
    simp only [String.append_assoc]
  refine ⟨hbr, ?_⟩
  intro h hmem hkept
  obtain ⟨p, q, hsplit⟩ := joinLines_mem_split (headerLineOf h)
    ((headers.filter headerKept).map headerLineOf)
    (List.mem_map_of_mem _ (List.mem_filter.mpr ⟨hmem, hkept⟩))
  refine ⟨"GET " ++ path ++ " HTTP/1.0\r\n" ++ p,
    q ++ ("User-Agent: " ++ header_user_agent ++ "\r\n" ++ "\r\n"), ?_⟩
  rw [hbr, hsplit]
  simp only [String.append_assoc]

/-- Claim C8 witness: the kept "Accept" header of a concrete request
appears contiguously in the outbound request. -/
theorem kept_headers_in_order_witness :
    ∃ p q, buildRequest "/" [⟨"Accept", "*/*"⟩, ⟨"User-agent", "z"⟩]
      = p ++ headerLineOf ⟨"Accept", "*/*"⟩ ++ q :=
  (kept_headers_in_order "/" [⟨"Accept", "*/*"⟩, ⟨"User-agent", "z"⟩]).2
    ⟨"Accept", "*/*"⟩ (by decide) (by decide)

/-- Claim C9: when the parsed target carries no port the origin connection
uses "80"; an explicit port string is used exactly as parsed. -/
theorem origin_port_default_and_explicit (m p h : String) (pt : Option String)
    (hs : List Header) (ini : Nat) (r : Bool) (resp : List UInt8)
    (hcount : 1 ≤ (ini + hs.length) % sizeTMod) :
    (pt = none → Event.connectOrigin h "80"
        ∈ serveParsed ⟨m, p, h, pt, HeaderPhase.ok hs, ini, r, resp⟩)
    ∧ ∀ pstr, pt = some pstr → Event.connectOrigin h pstr
        ∈ serveParsed ⟨m, p, h, pt, HeaderPhase.ok hs, ini, r, resp⟩ := by
  constructor
  · intro hnone
    subst hnone
    rw [serveParsed_mk, if_neg (show ¬((ini + hs.length) % sizeTMod < 1) by omega)]
    exact List.mem_append_right _ (List.mem_cons_self _ _)
  · intro pstr hsome
    subst hsome
    rw [serveParsed_mk, if_neg (show ¬((ini + hs.length) % sizeTMod < 1) by omega)]
    exact List.mem_append_right _ (List.mem_cons_self _ _)

/-- Claim C9 witness: an explicit `:8080` port is used exactly, and an
absent port defaults to "80", on concrete sessions. -/
theorem origin_port_witness :
    Event.connectOrigin "example.com" "8080" ∈ serveParsed demoInput
    ∧ Event.connectOrigin "example.com" "80" ∈ serveParsed demoInputNoPort :=
  ⟨(origin_port_default_and_explicit "GET" "/index.html" "example.com" (some "8080")
      [⟨"Host", "example.com"⟩, ⟨"Accept", "*/*"⟩] 0 true [72, 73] (by decide)).2 "8080" rfl,
   (origin_port_default_and_explicit "GET" "/index.html" "example.com" none
      [⟨"Host", "example.com"⟩, ⟨"Accept", "*/*"⟩] 0 true [72, 73] (by decide)).1 rfl⟩

/-- Claim C10: the method check accepts exactly the method strings whose
first three characters are G, E, T (only the first three bytes are
compared, so e.g. "GETX" passes), and every session reaching the
forwarding stage writes an outbound request whose method token is the
hard-coded literal "GET", whatever the client's method token was (the
theorem places no constraint on the method `m`). -/
theorem method_check_prefix_and_hardcoded_get (m p h : String) (pt : Option String)
    (hs : List Header) (ini : Nat) (resp : List UInt8)
    (hcount : 1 ≤ (ini + hs.length) % sizeTMod) :
    (strncmpIsZero m "GET" 3 = true ↔ ∃ rest, m.toList = 'G' :: 'E' :: 'T' :: rest)
    ∧ Event.writeOrigin (buildRequest p hs)
        ∈ serveParsed ⟨m, p, h, pt, HeaderPhase.ok hs, ini, true, resp⟩
    ∧ (∃ rest, buildRequest p hs = "GET " ++ rest) := by
  refine ⟨?_, ?_, ?_⟩
  · simp only [strncmpIsZero, beq_iff_eq]
    have h3 : ("GET" : String).toList.take 3 = ['G', 'E', 'T'] := rfl
    rw [h3]
    exact take_three_eq_iff _ _ _ _
  · rw [serveParsed_mk, if_neg (show ¬((ini + hs.length) % sizeTMod < 1) by omega),
      if_pos (show (true : Bool) = true from rfl)]
    exact List.mem_append_right _ (List.mem_cons_of_mem _ (List.mem_cons_self _ _))
  · refine ⟨p ++ (" HTTP/1.0\r\n"
      ++ (joinLines ((hs.filter headerKept).map headerLineOf)
        ++ ("User-Agent: " ++ (header_user_agent ++ ("\r\n" ++ "\r\n"))))), ?_⟩
    rw [buildRequest, appendHeaders_eq]
    simp only [String.append_assoc]

/-- Claim C10 witness: the method string "GETX" passes the three-byte
check, and the outbound request of that session still carries the
hard-coded GET method token. -/
theorem method_check_witness :
    strncmpIsZero "GETX" "GET" 3 = true
    ∧ Event.writeOrigin (buildRequest "/" [⟨"Host", "origin.example"⟩])
        ∈ serveParsed getxInput :=
  ⟨(method_check_prefix_and_hardcoded_get "GETX" "/" "origin.example" none
      [⟨"Host", "origin.example"⟩] 0 [] (by decide)).1.mpr ⟨['X'], rfl⟩,
   (method_check_prefix_and_hardcoded_get "GETX" "/" "origin.example" none
      [⟨"Host", "origin.example"⟩] 0 [] (by decide)).2.1⟩

end ProxySpec
